import Mathlib

/-!
Verification of the netxlite TLS layer (ooni/probe-cli).

Shallow embedding of `internal/netxlite/tls.go` (TLS configuration helpers,
the configurable TLS handshaker, the TLS dialer) and of the legacy
`tlsdialer.TLSDialer`. Machine integers are modelled as `Nat`; Go errors as
an inductive `Err`; `nil` pointers as `Option`; heap mutation through a
pointer is modelled by explicit state passing with an aliasing flag so that
"the caller's object is never mutated" is a real statement.
-/

set_option maxHeartbeats 1000000

/-- Go `crypto/tls` version constants: `tls.VersionTLS10 = 0x0301` etc. -/
def VersionTLS10 : Nat := 0x0301

def VersionTLS11 : Nat := 0x0302

def VersionTLS12 : Nat := 0x0303

def VersionTLS13 : Nat := 0x0304

/--
Model of Go `crypto/tls.Config`, with one Lean field per field of the Go
struct, in the Go declaration order (the order `reflect` iterates them in
`NewClientConnStdlib`). Function/interface/map/pointer-valued fields are
modelled by a `Bool` that is `true` exactly when the Go field is non-zero
(non-nil); `*x509.CertPool` fields by `Option Nat` (a pool identity);
slices by lists; `uint16` by `Nat`. The unexported fields (`mutex`,
`sessionTicketKeys`, `autoSessionTicketKeys`) are also visited by the
reflection loop and are modelled at the end.
-/
structure Config where
  Rand : Bool := false
  Time : Bool := false
  Certificates : List Nat := []
  NameToCertificate : Bool := false
  GetCertificate : Bool := false
  GetClientCertificate : Bool := false
  GetConfigForClient : Bool := false
  VerifyPeerCertificate : Bool := false
  VerifyConnection : Bool := false
  RootCAs : Option Nat := none
  NextProtos : List String := []
  ServerName : String := ""
  ClientAuth : Nat := 0
  ClientCAs : Option Nat := none
  InsecureSkipVerify : Bool := false
  CipherSuites : List Nat := []
  PreferServerCipherSuites : Bool := false
  SessionTicketsDisabled : Bool := false
  SessionTicketKey : Bool := false
  ClientSessionCache : Bool := false
  UnwrapSession : Bool := false
  WrapSession : Bool := false
  MinVersion : Nat := 0
  MaxVersion : Nat := 0
  CurvePreferences : List Nat := []
  DynamicRecordSizingDisabled : Bool := false
  Renegotiation : Nat := 0
  KeyLogWriter : Bool := false
  mutex : Bool := false
  sessionTicketKeys : List Nat := []
  autoSessionTicketKeys : List Nat := []
deriving Repr, DecidableEq

/-- The zero value of `tls.Config` (all fields at their Go zero value). -/
def Config.zero : Config := {}

/-- Model of Go errors: either a raw error (identified by its message) or a
classified `ErrWrapper` pairing a failure category and an operation tag
with the wrapped raw error. -/
inductive Err where
  | raw : String → Err
  | wrapped : (failure : String) → (operation : String) → (inner : Err) → Err
  | fmtWrapped : (base : Err) → (suffix : String) → Err
deriving Repr, DecidableEq

/-- Model of Go `errors.Is`: walks the `Unwrap` chain (both the
`ErrWrapper.Unwrap` of the classified wrapper and the wrapping performed
by `fmt.Errorf` with a `%w` verb) looking for the target sentinel. -/
def errorsIs (e target : Err) : Bool :=
  e == target ||
    match e with
    | .raw _ => false
    | .wrapped _ _ inner => errorsIs inner target
    | .fmtWrapped base _ => errorsIs base target

/-- The sentinel `ErrInvalidTLSVersion` from tls.go. -/
def ErrInvalidTLSVersion : Err := .raw "invalid TLS version"

/-- Model of `ConfigureTLSVersion(config, version)` from tls.go: a switch on the
version string that sets both `MinVersion` and `MaxVersion` on the config.
Go mutates the config through a pointer; here the function returns the
config after the call together with the returned error (`none` = `nil`). -/
def ConfigureTLSVersion (config : Config) (version : String) : Config × Option Err :=
  match version with
  | "TLSv1.3" => ({ config with MinVersion := VersionTLS13, MaxVersion := VersionTLS13 }, none)
  | "TLSv1.2" => ({ config with MinVersion := VersionTLS12, MaxVersion := VersionTLS12 }, none)
  | "TLSv1.1" => ({ config with MinVersion := VersionTLS11, MaxVersion := VersionTLS11 }, none)
  | "TLSv1.0" => ({ config with MinVersion := VersionTLS10, MaxVersion := VersionTLS10 }, none)
  | "TLSv1" => ({ config with MinVersion := VersionTLS10, MaxVersion := VersionTLS10 }, none)
  | "" => (config, none)
  | _ => (config, some ErrInvalidTLSVersion)

/-- First-match association-list lookup, modelling a Go map literal read. -/
def mapLookup : List (Nat × String) → Nat → Option String
  | [], _ => none
  | (k, s) :: rest, v => if v = k then some s else mapLookup rest v

/-- The `tlsVersionString` map from tls.go. -/
def tlsVersionString : List (Nat × String) :=
  [(VersionTLS10, "TLSv1"),
   (VersionTLS11, "TLSv1.1"),
   (VersionTLS12, "TLSv1.2"),
   (VersionTLS13, "TLSv1.3"),
   (0, "")]

/-- The `tlsCipherSuiteString` map from tls.go, with the numeric values of
the Go `crypto/tls` cipher-suite constants. -/
def tlsCipherSuiteString : List (Nat × String) :=
  [(0x0005, "TLS_RSA_WITH_RC4_128_SHA"),
   (0x000a, "TLS_RSA_WITH_3DES_EDE_CBC_SHA"),
   (0x002f, "TLS_RSA_WITH_AES_128_CBC_SHA"),
   (0x0035, "TLS_RSA_WITH_AES_256_CBC_SHA"),
   (0x003c, "TLS_RSA_WITH_AES_128_CBC_SHA256"),
   (0x009c, "TLS_RSA_WITH_AES_128_GCM_SHA256"),
   (0x009d, "TLS_RSA_WITH_AES_256_GCM_SHA384"),
   (0xc007, "TLS_ECDHE_ECDSA_WITH_RC4_128_SHA"),
   (0xc009, "TLS_ECDHE_ECDSA_WITH_AES_128_CBC_SHA"),
   (0xc00a, "TLS_ECDHE_ECDSA_WITH_AES_256_CBC_SHA"),
   (0xc011, "TLS_ECDHE_RSA_WITH_RC4_128_SHA"),
   (0xc012, "TLS_ECDHE_RSA_WITH_3DES_EDE_CBC_SHA"),
   (0xc013, "TLS_ECDHE_RSA_WITH_AES_128_CBC_SHA"),
   (0xc014, "TLS_ECDHE_RSA_WITH_AES_256_CBC_SHA"),
   (0xc023, "TLS_ECDHE_ECDSA_WITH_AES_128_CBC_SHA256"),
   (0xc027, "TLS_ECDHE_RSA_WITH_AES_128_CBC_SHA256"),
   (0xc02f, "TLS_ECDHE_RSA_WITH_AES_128_GCM_SHA256"),
   (0xc02b, "TLS_ECDHE_ECDSA_WITH_AES_128_GCM_SHA256"),
   (0xc030, "TLS_ECDHE_RSA_WITH_AES_256_GCM_SHA384"),
   (0xc02c, "TLS_ECDHE_ECDSA_WITH_AES_256_GCM_SHA384"),
   (0xcca8, "TLS_ECDHE_RSA_WITH_CHACHA20_POLY1305"),
   (0xcca9, "TLS_ECDHE_ECDSA_WITH_CHACHA20_POLY1305"),
   (0x1301, "TLS_AES_128_GCM_SHA256"),
   (0x1302, "TLS_AES_256_GCM_SHA384"),
   (0x1303, "TLS_CHACHA20_POLY1305_SHA256"),
   (0, "")]

/-- Model of `TLSVersionString(value)` from tls.go: map lookup with the
`TLS_VERSION_UNKNOWN_%d` fallback. -/
def TLSVersionString (value : Nat) : String :=
  match mapLookup tlsVersionString value with
  | some str => str
  | none => "TLS_VERSION_UNKNOWN_" ++ toString value

/-- Model of `TLSCipherSuiteString(value)` from tls.go: map lookup with the
`TLS_CIPHER_SUITE_UNKNOWN_%d` fallback. -/
def TLSCipherSuiteString (value : Nat) : String :=
  match mapLookup tlsCipherSuiteString value with
  | some str => str
  | none => "TLS_CIPHER_SUITE_UNKNOWN_" ++ toString value

/-- Lookup misses when the key is not among the list's keys. -/
theorem mapLookup_eq_none {l : List (Nat × String)} {v : Nat}
    (h : v ∉ l.map Prod.fst) : mapLookup l v = none := by
  induction l with
  | nil => rfl
  | cons hd tl ih =>
    simp only [List.map_cons, List.mem_cons, not_or] at h
    simp only [mapLookup, if_neg h.1, ih h.2]

/-- The sentinel `ErrIncompatibleStdlibConfig` from tls.go. -/
def ErrIncompatibleStdlibConfig : Err := .raw "incompatible stdlib config"

/-- The `supportedFields` map literal inside `NewClientConnStdlib`. -/
def supportedFields : List String :=
  ["DynamicRecordSizingDisabled", "InsecureSkipVerify", "MaxVersion",
   "MinVersion", "NextProtos", "RootCAs", "ServerName"]

/-- The reflection view of a config: for each field of `tls.Config`, in
declaration order, its name and the result of `reflect.Value.IsZero`. -/
def Config.fieldIsZero (c : Config) : List (String × Bool) :=
  [("Rand", !c.Rand),
   ("Time", !c.Time),
   ("Certificates", c.Certificates.isEmpty),
   ("NameToCertificate", !c.NameToCertificate),
   ("GetCertificate", !c.GetCertificate),
   ("GetClientCertificate", !c.GetClientCertificate),
   ("GetConfigForClient", !c.GetConfigForClient),
   ("VerifyPeerCertificate", !c.VerifyPeerCertificate),
   ("VerifyConnection", !c.VerifyConnection),
   ("RootCAs", c.RootCAs.isNone),
   ("NextProtos", c.NextProtos.isEmpty),
   ("ServerName", c.ServerName == ""),
   ("ClientAuth", c.ClientAuth == 0),
   ("ClientCAs", c.ClientCAs.isNone),
   ("InsecureSkipVerify", !c.InsecureSkipVerify),
   ("CipherSuites", c.CipherSuites.isEmpty),
   ("PreferServerCipherSuites", !c.PreferServerCipherSuites),
   ("SessionTicketsDisabled", !c.SessionTicketsDisabled),
   ("SessionTicketKey", !c.SessionTicketKey),
   ("ClientSessionCache", !c.ClientSessionCache),
   ("UnwrapSession", !c.UnwrapSession),
   ("WrapSession", !c.WrapSession),
   ("MinVersion", c.MinVersion == 0),
   ("MaxVersion", c.MaxVersion == 0),
   ("CurvePreferences", c.CurvePreferences.isEmpty),
   ("DynamicRecordSizingDisabled", !c.DynamicRecordSizingDisabled),
   ("Renegotiation", c.Renegotiation == 0),
   ("KeyLogWriter", !c.KeyLogWriter),
   ("mutex", !c.mutex),
   ("sessionTicketKeys", c.sessionTicketKeys.isEmpty),
   ("autoSessionTicketKeys", c.autoSessionTicketKeys.isEmpty)]

/-- Model of `NewClientConnStdlib(conn, config)` from tls.go, restricted to its
config logic (the `net.Conn` plays no role in it): the reflection loop
returns, at the first field that is non-zero and not in `supportedFields`,
the error `fmt.Errorf("%w: field %s is nonzero", ErrIncompatibleStdlibConfig,
name)`; otherwise the function builds `ourConfig` copying exactly the seven
supported fields and hands it to `tls.Client`, which never fails. The `.ok`
payload is the config carried by the returned connection. -/
def NewClientConnStdlib (config : Config) : Except Err Config :=
  match config.fieldIsZero.find? (fun f => !f.2 && !(supportedFields.contains f.1)) with
  | some f => .error (.fmtWrapped ErrIncompatibleStdlibConfig (": field " ++ f.1 ++ " is nonzero"))
  | none => .ok { DynamicRecordSizingDisabled := config.DynamicRecordSizingDisabled,
                  InsecureSkipVerify := config.InsecureSkipVerify,
                  MaxVersion := config.MaxVersion,
                  MinVersion := config.MinVersion,
                  NextProtos := config.NextProtos,
                  RootCAs := config.RootCAs,
                  ServerName := config.ServerName }

/-- The property named by the spec: some field of the config outside the
recognized set of seven holds a non-zero value. Spelled out field by field
over the Go struct. -/
def someUnsupportedFieldNonzero (c : Config) : Prop :=
  c.Rand = true ∨ c.Time = true ∨ c.Certificates ≠ [] ∨
  c.NameToCertificate = true ∨ c.GetCertificate = true ∨
  c.GetClientCertificate = true ∨ c.GetConfigForClient = true ∨
  c.VerifyPeerCertificate = true ∨ c.VerifyConnection = true ∨
  c.ClientAuth ≠ 0 ∨ c.ClientCAs ≠ none ∨ c.CipherSuites ≠ [] ∨
  c.PreferServerCipherSuites = true ∨ c.SessionTicketsDisabled = true ∨
  c.SessionTicketKey = true ∨ c.ClientSessionCache = true ∨
  c.UnwrapSession = true ∨ c.WrapSession = true ∨
  c.CurvePreferences ≠ [] ∨ c.Renegotiation ≠ 0 ∨ c.KeyLogWriter = true ∨
  c.mutex = true ∨ c.sessionTicketKeys ≠ [] ∨ c.autoSessionTicketKeys ≠ []

/-- Helper for C1: the reflection loop finds an offending field exactly
when some field outside the recognized set is non-zero. -/
theorem findIncompat_isSome_iff (c : Config) :
    (c.fieldIsZero.find? (fun f => !f.2 && !(supportedFields.contains f.1))).isSome ↔
      someUnsupportedFieldNonzero c := by
  rw [List.find?_isSome]
  simp [Config.fieldIsZero, supportedFields, someUnsupportedFieldNonzero,
    Option.isSome_iff_ne_none]

/--
C1: `NewClientConnStdlib(conn, config)` returns the
`ErrIncompatibleStdlibConfig` error if and only if some field of the config
outside the recognized set of seven holds a non-zero value; on success, the
configuration used for the returned connection copies exactly those seven
fields from the input and leaves every other field at its zero value.
-/
theorem newClientConnStdlib_spec (c : Config) :
    ((∃ e, NewClientConnStdlib c = .error e ∧ errorsIs e ErrIncompatibleStdlibConfig = true) ↔
      someUnsupportedFieldNonzero c) ∧
    (∀ out, NewClientConnStdlib c = .ok out →
      (out.DynamicRecordSizingDisabled = c.DynamicRecordSizingDisabled ∧
       out.InsecureSkipVerify = c.InsecureSkipVerify ∧
       out.MaxVersion = c.MaxVersion ∧
       out.MinVersion = c.MinVersion ∧
       out.NextProtos = c.NextProtos ∧
       out.RootCAs = c.RootCAs ∧
       out.ServerName = c.ServerName) ∧
      (out.Rand = false ∧ out.Time = false ∧ out.Certificates = [] ∧
       out.NameToCertificate = false ∧ out.GetCertificate = false ∧
       out.GetClientCertificate = false ∧ out.GetConfigForClient = false ∧
       out.VerifyPeerCertificate = false ∧ out.VerifyConnection = false ∧
       out.ClientAuth = 0 ∧ out.ClientCAs = none ∧ out.CipherSuites = [] ∧
       out.PreferServerCipherSuites = false ∧ out.SessionTicketsDisabled = false ∧
       out.SessionTicketKey = false ∧ out.ClientSessionCache = false ∧
       out.UnwrapSession = false ∧ out.WrapSession = false ∧
       out.CurvePreferences = [] ∧ out.Renegotiation = 0 ∧
       out.KeyLogWriter = false ∧ out.mutex = false ∧
       out.sessionTicketKeys = [] ∧ out.autoSessionTicketKeys = [])) := by
  constructor
  · rw [← findIncompat_isSome_iff c]
    unfold NewClientConnStdlib
    cases h : c.fieldIsZero.find? (fun f => !f.2 && !(supportedFields.contains f.1)) with
    | none => simp [h]
    | some f => simp [h, errorsIs]
  · intro out hout
    unfold NewClientConnStdlib at hout
    cases h : c.fieldIsZero.find? (fun f => !f.2 && !(supportedFields.contains f.1)) with
    | none =>
      rw [h] at hout
      cases hout
      simp
    | some f =>
      rw [h] at hout
      exact absurd hout (by simp)

/-- Witness for C1 at concrete configs: a config with only the unsupported
`GetCertificate` callback set fails with the incompatible-config error; a
config with only recognized fields set succeeds and copies them. -/
theorem newClientConnStdlib_spec_witness :
    (∃ e, NewClientConnStdlib { GetCertificate := true } = .error e ∧
        errorsIs e ErrIncompatibleStdlibConfig = true) ∧
    NewClientConnStdlib { ServerName := "example.com", RootCAs := some 7 } =
      .ok { ServerName := "example.com", RootCAs := some 7 } ∧
    ({ ServerName := "example.com", RootCAs := some 7 } : Config).ServerName = "example.com" := by
  refine ⟨?_, rfl, ?_⟩
  · exact (newClientConnStdlib_spec { GetCertificate := true }).1.mpr
      (by simp [someUnsupportedFieldNonzero])
  · have h := (newClientConnStdlib_spec { ServerName := "example.com", RootCAs := some 7 }).2
      { ServerName := "example.com", RootCAs := some 7 } rfl
    exact h.1.2.2.2.2.2.2

/--
C6: `ConfigureTLSVersion(config, version)` sets both `MinVersion` and
`MaxVersion` for each string of the closed set (`TLSv1.3`, `TLSv1.2`,
`TLSv1.1`, `TLSv1.0`, `TLSv1`) and returns `nil`; for the empty string it
returns `nil` and leaves the config unchanged; for every other string it
returns `ErrInvalidTLSVersion` and leaves the config unchanged.
-/
theorem configureTLSVersion_spec (c : Config) (v : String) :
    ConfigureTLSVersion c "TLSv1.3" =
      ({ c with MinVersion := VersionTLS13, MaxVersion := VersionTLS13 }, none) ∧
    ConfigureTLSVersion c "TLSv1.2" =
      ({ c with MinVersion := VersionTLS12, MaxVersion := VersionTLS12 }, none) ∧
    ConfigureTLSVersion c "TLSv1.1" =
      ({ c with MinVersion := VersionTLS11, MaxVersion := VersionTLS11 }, none) ∧
    ConfigureTLSVersion c "TLSv1.0" =
      ({ c with MinVersion := VersionTLS10, MaxVersion := VersionTLS10 }, none) ∧
    ConfigureTLSVersion c "TLSv1" =
      ({ c with MinVersion := VersionTLS10, MaxVersion := VersionTLS10 }, none) ∧
    ConfigureTLSVersion c "" = (c, none) ∧
    (v ∉ ["TLSv1.3", "TLSv1.2", "TLSv1.1", "TLSv1.0", "TLSv1", ""] →
      ConfigureTLSVersion c v = (c, some ErrInvalidTLSVersion)) := by
  refine ⟨rfl, rfl, rfl, rfl, rfl, rfl, ?_⟩
  intro hv
  simp only [List.mem_cons, List.not_mem_nil, or_false, not_or] at hv
  obtain ⟨h1, h2, h3, h4, h5, h6⟩ := hv
  unfold ConfigureTLSVersion
  split <;> simp_all

/-- Witness for C6 at the concrete invalid string `TLSv1.5`. -/
theorem configureTLSVersion_spec_witness :
    ConfigureTLSVersion Config.zero "TLSv1.5" = (Config.zero, some ErrInvalidTLSVersion) :=
  (configureTLSVersion_spec Config.zero "TLSv1.5").2.2.2.2.2.2 (by decide)

/--
C7: `TLSVersionString` returns the documented literal name for each of the
four known TLS version constants, the empty string for 0, and
`TLS_VERSION_UNKNOWN_<v>` for every other value; `TLSCipherSuiteString`
returns the known cipher-suite name for every entry of its table, the empty
string for 0, and `TLS_CIPHER_SUITE_UNKNOWN_<v>` for any value not in the
table. Both functions are total Lean functions, so no input panics or
aborts.
-/
theorem tlsVersionCipherSuiteString_spec (v : Nat) :
    TLSVersionString VersionTLS10 = "TLSv1" ∧
    TLSVersionString VersionTLS11 = "TLSv1.1" ∧
    TLSVersionString VersionTLS12 = "TLSv1.2" ∧
    TLSVersionString VersionTLS13 = "TLSv1.3" ∧
    TLSVersionString 0 = "" ∧
    (v ∉ tlsVersionString.map Prod.fst →
      TLSVersionString v = "TLS_VERSION_UNKNOWN_" ++ toString v) ∧
    (∀ p ∈ tlsCipherSuiteString, TLSCipherSuiteString p.1 = p.2) ∧
    TLSCipherSuiteString 0 = "" ∧
    (v ∉ tlsCipherSuiteString.map Prod.fst →
      TLSCipherSuiteString v = "TLS_CIPHER_SUITE_UNKNOWN_" ++ toString v) := by
  refine ⟨rfl, rfl, rfl, rfl, rfl, ?_, by decide, rfl, ?_⟩
  · intro hv
    unfold TLSVersionString
    rw [mapLookup_eq_none hv]
  · intro hv
    unfold TLSCipherSuiteString
    rw [mapLookup_eq_none hv]

/-- Witness for C7 at the concrete unknown value 0xFFFF and the concrete
known cipher suite 0x1301. -/
theorem tlsVersionCipherSuiteString_spec_witness :
    TLSVersionString 0xFFFF = "TLS_VERSION_UNKNOWN_" ++ toString (0xFFFF : Nat) ∧
    TLSCipherSuiteString 0xFFFF = "TLS_CIPHER_SUITE_UNKNOWN_" ++ toString (0xFFFF : Nat) ∧
    TLSCipherSuiteString 0x1301 = "TLS_AES_128_GCM_SHA256" := by
  refine ⟨?_, ?_, ?_⟩
  · exact (tlsVersionCipherSuiteString_spec 0xFFFF).2.2.2.2.2.1 (by decide)
  · exact (tlsVersionCipherSuiteString_spec 0xFFFF).2.2.2.2.2.2.2.2 (by decide)
  · exact (tlsVersionCipherSuiteString_spec 0).2.2.2.2.2.2.1
      (0x1301, "TLS_AES_128_GCM_SHA256") (by decide)

/-- Aliasing model for a Go `*tls.Config` local variable: `caller` is the
object the caller passed in, `cur` is the object the local pointer
currently refers to, and `aliased` records whether they are still the same
heap object. -/
structure CfgPtr where
  caller : Config
  cur : Config
  aliased : Bool
deriving Repr, DecidableEq

/-- A local pointer freshly bound to the caller's config object. -/
def CfgPtr.ofCaller (c : Config) : CfgPtr := { caller := c, cur := c, aliased := true }

/-- The step `config = config.Clone()`: the local pointer now refers to a fresh copy,
detached from the caller's object. -/
def CfgPtr.clone (p : CfgPtr) : CfgPtr := { p with aliased := false }

/-- A field assignment through the local pointer: it also mutates the
caller's object exactly when the pointer still aliases it. -/
def CfgPtr.write (p : CfgPtr) (f : Config → Config) : CfgPtr :=
  { caller := if p.aliased then f p.caller else p.caller,
    cur := f p.cur,
    aliased := p.aliased }

/-- The `TLSHandshakeOperation` tag. -/
def TLSHandshakeOperation : String := "tls_handshake"

/-- Modelled from the spec: `MaybeNewErrWrapper(classifier, operation, err)`
of the Error Wrapping Decorator, whose source file is not part of this
corpus. When the error is nil it returns nil; otherwise it replaces the raw
error with a Classified Error pairing the failure category computed by the
classifier with the operation tag, keeping the original error inside. -/
def MaybeNewErrWrapper (classify : Err → String) (op : String) : Option Err → Option Err
  | none => none
  | some e => some (.wrapped (classify e) op e)

/-- The raw outcome of `tlsconn.HandshakeContext(ctx)`; `panicked` models a
panic escaping the call (the deferred deadline reset still runs). -/
inductive CallOutcome where
  | ok
  | fail (e : Err)
  | panicked
deriving Repr, DecidableEq

/-- Model of `tlsMaybeConnectionState(conn, err)` from tls.go: the state is read from
the connection only when the error is nil, otherwise an empty
`tls.ConnectionState` is returned. Modelled as the Bool "the state was read
from the connection". -/
def tlsMaybeConnectionState (err : Option Err) : Bool := err.isNone

/-- The TLS-handshake trace events of `model.Trace` that tls.go emits. -/
inductive TraceEvent where
  | tlsHandshakeStart (t : Int) (remoteAddr : String) (config : Config)
  | tlsHandshakeDone (started : Int) (remoteAddr : String) (config : Config)
      (stateFromConn : Bool) (err : Option Err) (finished : Int)
deriving Repr, DecidableEq

/-- The `tlsHandshakerConfigurable` struct: only `Timeout` (Go
`time.Duration`, nanoseconds, modelled as `Int`) matters for the control
flow; the `NewConn` factory's and provider's behaviour is supplied by the
environment. -/
structure TLSHandshakerConfigurable where
  Timeout : Int
deriving Repr, DecidableEq

/-- Environment of one `Handshake` call: the clock readings, the provider's
default certificate pool, and the outcomes of the two effectful inner calls
(`h.newConn` and `tlsconn.HandshakeContext`). -/
structure HandshakeEnv where
  remoteAddr : String
  timeStart : Int
  timeFinish : Int
  nowWall : Int
  defaultCertPool : Nat
  newConnResult : Except Err Unit
  hsOutcome : CallOutcome
  classify : Err → String

/-- What `Handshake` returned (or that it panicked through). -/
inductive HSResult where
  | success
  | failure (e : Err)
  | panicked
deriving Repr, DecidableEq

/-- Observable effects of one `tlsHandshakerConfigurable.Handshake` call. -/
structure HandshakeEffects where
  res : HSResult
  deadlineSetTo : Int
  finalDeadline : Option Int
  callerConfig : Config
  factoryConfig : Config
  events : List TraceEvent
deriving Repr, DecidableEq

/-- Model of `tlsHandshakerConfigurable.Handshake(ctx, conn, config)` from tls.go:
computes the effective timeout (10s default when non-positive), registers
the deferred deadline reset, sets the deadline to now+timeout, installs the
default cert pool on a clone when `config.RootCAs == nil`, creates the TLS
conn via the factory (returning its error directly on failure), then emits
the start event, runs `HandshakeContext`, classifies its error once via
`MaybeNewErrWrapper`, emits the done event carrying the classified error,
and returns. `finalDeadline = none` models the deferred
`conn.SetDeadline(time.Time{})` that runs on every exit path, the panic
path included. -/
def tlsHandshakerConfigurableHandshake (h : TLSHandshakerConfigurable)
    (env : HandshakeEnv) (config : Config) : HandshakeEffects :=
  let timeout : Int := if h.Timeout ≤ 0 then 10 * 1000000000 else h.Timeout
  let deadline : Int := env.nowWall + timeout
  let ptr : CfgPtr := CfgPtr.ofCaller config
  let ptr : CfgPtr :=
    if ptr.cur.RootCAs = none then
      ptr.clone.write (fun c => { c with RootCAs := some env.defaultCertPool })
    else ptr
  match env.newConnResult with
  | .error e =>
      { res := .failure e, deadlineSetTo := deadline, finalDeadline := none,
        callerConfig := ptr.caller, factoryConfig := ptr.cur, events := [] }
  | .ok _ =>
      let started := env.timeStart
      let startEvt := TraceEvent.tlsHandshakeStart started env.remoteAddr ptr.cur
      match env.hsOutcome with
      | .panicked =>
          { res := .panicked, deadlineSetTo := deadline, finalDeadline := none,
            callerConfig := ptr.caller, factoryConfig := ptr.cur, events := [startEvt] }
      | .ok =>
          let err := MaybeNewErrWrapper env.classify TLSHandshakeOperation none
          let finished := env.timeFinish
          let doneEvt := TraceEvent.tlsHandshakeDone started env.remoteAddr ptr.cur
            (tlsMaybeConnectionState err) err finished
          { res := .success, deadlineSetTo := deadline, finalDeadline := none,
            callerConfig := ptr.caller, factoryConfig := ptr.cur,
            events := [startEvt, doneEvt] }
      | .fail e =>
          let err := MaybeNewErrWrapper env.classify TLSHandshakeOperation (some e)
          let finished := env.timeFinish
          let doneEvt := TraceEvent.tlsHandshakeDone started env.remoteAddr ptr.cur
            (tlsMaybeConnectionState err) err finished
          { res := .failure (.wrapped (env.classify e) TLSHandshakeOperation e),
            deadlineSetTo := deadline, finalDeadline := none,
            callerConfig := ptr.caller, factoryConfig := ptr.cur,
            events := [startEvt, doneEvt] }

/-- Observable effects of one `tlsHandshakerLogger.Handshake` call. -/
structure LoggerEffects where
  loggedErr : Option Err
  res : HSResult
deriving Repr, DecidableEq

/-- Model of `tlsHandshakerLogger.Handshake` from tls.go: delegates to the wrapped
handshaker; on failure it logs the error it received and returns it
unchanged; on success it logs the negotiated state and returns the
connection. `loggedErr` is the error appearing in the emitted debug line. -/
def tlsHandshakerLoggerHandshake (inner : HandshakeEffects) : LoggerEffects :=
  match inner.res with
  | .failure e => { loggedErr := some e, res := .failure e }
  | .success => { loggedErr := none, res := .success }
  | .panicked => { loggedErr := none, res := .panicked }

/--
C4: `tlsHandshakerConfigurable.Handshake` sets the connection deadline to
now + timeout before the handshake, where the timeout is the handshaker's
`Timeout` field with 10 seconds substituted whenever it is zero or
negative, and the deferred reset leaves no deadline on the connection on
any exit path (factory error, handshake error, success, or panic).
-/
theorem handshakeDeadline_spec (h : TLSHandshakerConfigurable)
    (env : HandshakeEnv) (config : Config) :
    (tlsHandshakerConfigurableHandshake h env config).deadlineSetTo =
      env.nowWall + (if h.Timeout ≤ 0 then 10 * 1000000000 else h.Timeout) ∧
    (tlsHandshakerConfigurableHandshake h env config).finalDeadline = none := by
  unfold tlsHandshakerConfigurableHandshake
  cases env.newConnResult <;> cases env.hsOutcome <;> simp

/--
C5: when the config's `RootCAs` is nil, `Handshake` passes to the TLS
connection factory a clone of the config carrying the provider's default
certificate pool, and the caller's config object is not mutated (its
`RootCAs` is still nil afterwards); when `RootCAs` is non-nil the config is
passed to the factory as given.
-/
theorem handshakeRootCAs_spec (h : TLSHandshakerConfigurable)
    (env : HandshakeEnv) (config : Config) :
    (config.RootCAs = none →
      (tlsHandshakerConfigurableHandshake h env config).factoryConfig =
        { config with RootCAs := some env.defaultCertPool } ∧
      (tlsHandshakerConfigurableHandshake h env config).callerConfig = config ∧
      (tlsHandshakerConfigurableHandshake h env config).callerConfig.RootCAs = none) ∧
    (config.RootCAs ≠ none →
      (tlsHandshakerConfigurableHandshake h env config).factoryConfig = config ∧
      (tlsHandshakerConfigurableHandshake h env config).callerConfig = config) := by
  unfold tlsHandshakerConfigurableHandshake
  constructor
  · intro hroot
    cases env.newConnResult <;> cases env.hsOutcome <;>
      simp [hroot, CfgPtr.ofCaller, CfgPtr.clone, CfgPtr.write]
  · intro hroot
    cases env.newConnResult <;> cases env.hsOutcome <;>
      simp [hroot, CfgPtr.ofCaller, CfgPtr.clone, CfgPtr.write]

/-- Witness for C5 at a concrete handshaker, environment and config. -/
theorem handshakeRootCAs_spec_witness :
    (tlsHandshakerConfigurableHandshake ⟨0⟩
      ⟨"1.2.3.4:443", 0, 1, 0, 42, .ok (), .ok, fun _ => "unknown"⟩
      Config.zero).factoryConfig = { Config.zero with RootCAs := some 42 } ∧
    (tlsHandshakerConfigurableHandshake ⟨0⟩
      ⟨"1.2.3.4:443", 0, 1, 0, 42, .ok (), .ok, fun _ => "unknown"⟩
      Config.zero).callerConfig.RootCAs = none ∧
    (tlsHandshakerConfigurableHandshake ⟨0⟩
      ⟨"1.2.3.4:443", 0, 1, 0, 42, .ok (), .ok, fun _ => "unknown"⟩
      { RootCAs := some 9 }).factoryConfig = { Config.zero with RootCAs := some 9 } := by
  refine ⟨?_, ?_, ?_⟩
  · exact ((handshakeRootCAs_spec ⟨0⟩ _ Config.zero).1 rfl).1
  · exact ((handshakeRootCAs_spec ⟨0⟩ _ Config.zero).1 rfl).2.2
  · exact ((handshakeRootCAs_spec ⟨0⟩ _ { RootCAs := some 9 }).2 (by simp)).1

/--
C8: when `HandshakeContext` fails with a raw error, that error is
classified exactly once inside `tlsHandshakerConfigurable.Handshake`: the
error carried by the tracing done event, the error logged by
`tlsHandshakerLogger`, and the error returned to the caller are all the
same classified wrapper around the raw error, and the logger returns it
unchanged without re-classifying.
-/
theorem handshakeClassifiedOnce_spec (h : TLSHandshakerConfigurable)
    (env : HandshakeEnv) (config : Config) (e : Err)
    (hnc : env.newConnResult = .ok ())
    (hhs : env.hsOutcome = .fail e) :
    (tlsHandshakerConfigurableHandshake h env config).res =
      .failure (.wrapped (env.classify e) TLSHandshakeOperation e) ∧
    (∃ cfg, (tlsHandshakerConfigurableHandshake h env config).events =
      [TraceEvent.tlsHandshakeStart env.timeStart env.remoteAddr cfg,
       TraceEvent.tlsHandshakeDone env.timeStart env.remoteAddr cfg false
         (some (.wrapped (env.classify e) TLSHandshakeOperation e)) env.timeFinish]) ∧
    tlsHandshakerLoggerHandshake (tlsHandshakerConfigurableHandshake h env config) =
      { loggedErr := some (.wrapped (env.classify e) TLSHandshakeOperation e),
        res := .failure (.wrapped (env.classify e) TLSHandshakeOperation e) } := by
  unfold tlsHandshakerConfigurableHandshake tlsHandshakerLoggerHandshake
  rw [hnc, hhs]
  by_cases hroot : config.RootCAs = none <;>
    simp [hroot, MaybeNewErrWrapper, tlsMaybeConnectionState, CfgPtr.ofCaller,
      CfgPtr.clone, CfgPtr.write]

/-- Witness for C8 at a concrete handshaker, environment, config and raw
handshake error. -/
theorem handshakeClassifiedOnce_spec_witness :
    (tlsHandshakerConfigurableHandshake ⟨0⟩
      ⟨"1.2.3.4:443", 0, 1, 0, 42, .ok (), .fail (.raw "connection reset by peer"),
        fun _ => "connection_reset"⟩ Config.zero).res =
      .failure (.wrapped "connection_reset" TLSHandshakeOperation
        (.raw "connection reset by peer")) := by
  exact (handshakeClassifiedOnce_spec ⟨0⟩
    ⟨"1.2.3.4:443", 0, 1, 0, 42, .ok (), .fail (.raw "connection reset by peer"),
      fun _ => "connection_reset"⟩ Config.zero (.raw "connection reset by peer")
    rfl rfl).1

/--
C9: whenever the connection factory succeeds and the handshake call
returns (no panic), the trace receives exactly one start event followed by
exactly one done event; the done event's finished timestamp is at or after
the start timestamp (given a monotone clock), and the done event carries
the handshake's classified error, nil on success.
-/
theorem handshakeTraceEvents_spec (h : TLSHandshakerConfigurable)
    (env : HandshakeEnv) (config : Config)
    (hnc : env.newConnResult = .ok ())
    (hnp : env.hsOutcome ≠ .panicked)
    (hmono : env.timeStart ≤ env.timeFinish) :
    ∃ cfg errOpt,
      (tlsHandshakerConfigurableHandshake h env config).events =
        [TraceEvent.tlsHandshakeStart env.timeStart env.remoteAddr cfg,
         TraceEvent.tlsHandshakeDone env.timeStart env.remoteAddr cfg
           errOpt.isNone errOpt env.timeFinish] ∧
      env.timeStart ≤ env.timeFinish ∧
      (env.hsOutcome = .ok → errOpt = none) ∧
      (∀ e, env.hsOutcome = .fail e →
        errOpt = some (.wrapped (env.classify e) TLSHandshakeOperation e)) := by
  unfold tlsHandshakerConfigurableHandshake
  rw [hnc]
  cases hout : env.hsOutcome with
  | panicked => exact absurd hout hnp
  | ok =>
      refine ⟨_, none, by simp [MaybeNewErrWrapper, tlsMaybeConnectionState]; rfl, hmono, ?_, ?_⟩
      · intro; rfl
      · intro e he; cases he
  | fail e =>
      refine ⟨_, some (.wrapped (env.classify e) TLSHandshakeOperation e),
        by simp [MaybeNewErrWrapper, tlsMaybeConnectionState]; rfl, hmono, ?_, ?_⟩
      · intro hok; cases hok
      · intro e2 he2; cases he2; rfl

/-- Witness for C9 at a concrete handshaker, environment and config. -/
theorem handshakeTraceEvents_spec_witness :
    ∃ cfg errOpt,
      (tlsHandshakerConfigurableHandshake ⟨0⟩
        ⟨"1.2.3.4:443", 5, 9, 0, 42, .ok (), .ok, fun _ => "unknown"⟩
        Config.zero).events =
        [TraceEvent.tlsHandshakeStart 5 "1.2.3.4:443" cfg,
         TraceEvent.tlsHandshakeDone 5 "1.2.3.4:443" cfg
           errOpt.isNone errOpt 9] ∧
      (5 : Int) ≤ 9 ∧
      (CallOutcome.ok = CallOutcome.ok → errOpt = none) ∧
      (∀ e, CallOutcome.ok = CallOutcome.fail e →
        errOpt = some (.wrapped ((fun _ => "unknown") e) TLSHandshakeOperation e)) := by
  exact handshakeTraceEvents_spec ⟨0⟩
    ⟨"1.2.3.4:443", 5, 9, 0, 42, .ok (), .ok, fun _ => "unknown"⟩
    Config.zero rfl (by decide) (by decide)

/-- Model of `tlsDialer.config(host, port)` from tls.go: clones the stored base
config (or starts from a fresh empty one when it is nil), defaults
`ServerName` to the dialed host when unset, and defaults `NextProtos` by
well-known port (443, 853) only when unset. Returns the derived config
together with the dialer's stored base config object after the call, so
that "a dial never mutates the stored base config" is a real statement. -/
def tlsDialerConfig (base : Option Config) (host port : String) : Config × Option Config :=
  let ptr : CfgPtr :=
    match base with
    | none => { caller := Config.zero, cur := Config.zero, aliased := false }
    | some c => CfgPtr.ofCaller c
  let ptr := ptr.clone
  let ptr :=
    if ptr.cur.ServerName = "" then ptr.write (fun c => { c with ServerName := host })
    else ptr
  let ptr :=
    if ptr.cur.NextProtos.length ≤ 0 then
      match port with
      | "443" => ptr.write (fun c => { c with NextProtos := ["h2", "http/1.1"] })
      | "853" => ptr.write (fun c => { c with NextProtos := ["dot"] })
      | _ => ptr
    else ptr
  (ptr.cur, base.map (fun _ => ptr.caller))

/-- The per-connection config derivation of the legacy
`tlsdialer.TLSDialer.DialTLSContext`: clone the base config (or start from
a fresh empty one), default `ServerName` to the host when unset; no ALPN
defaulting. Returns the derived config and the base object after the
call. -/
def legacyTLSDialerConfig (base : Option Config) (host : String) : Config × Option Config :=
  let ptr : CfgPtr :=
    match base with
    | none => { caller := Config.zero, cur := Config.zero, aliased := false }
    | some c => (CfgPtr.ofCaller c).clone
  let ptr :=
    if ptr.cur.ServerName = "" then ptr.write (fun c => { c with ServerName := host })
    else ptr
  (ptr.cur, base.map (fun _ => ptr.caller))

/-- Environment of one `DialTLSContext` call: outcomes of the three
effectful inner calls (`net.SplitHostPort`, the inner dialer's
`DialContext`, and the handshaker's `Handshake`, which may depend on the
derived config). `net.SplitHostPort` is Go standard-library code, so its
outcome is an oracle of the environment. -/
structure DialEnv where
  hostPort : Except Err (String × String)
  dial : Except Err Nat
  handshake : Config → Except Err Unit

/-- The externally visible steps a `DialTLSContext` call performs, in
program order. -/
inductive DialAction where
  | dialCall
  | handshakeCall (conn : Nat) (config : Config)
  | closeConn (conn : Nat)
deriving Repr, DecidableEq

/-- Model of `tlsDialer.DialTLSContext(ctx, network, address)` from tls.go: split
host and port (returning the raw split error directly on failure), dial the
TCP connection, derive the per-connection config, handshake, and on
handshake failure close the TCP connection before returning the error. -/
def tlsDialerDialTLSContext (base : Option Config) (env : DialEnv) :
    Except Err Nat × List DialAction :=
  match env.hostPort with
  | .error e => (.error e, [])
  | .ok (host, port) =>
    match env.dial with
    | .error e => (.error e, [.dialCall])
    | .ok conn =>
      let config := (tlsDialerConfig base host port).1
      match env.handshake config with
      | .error e => (.error e, [.dialCall, .handshakeCall conn config, .closeConn conn])
      | .ok _ => (.ok conn, [.dialCall, .handshakeCall conn config])

/-- Legacy `tlsdialer.TLSDialer.DialTLSContext`: same shape, with the
legacy config derivation (the port is discarded after the split) and the
same close-on-handshake-failure behaviour. -/
def legacyTLSDialerDialTLSContext (base : Option Config) (env : DialEnv) :
    Except Err Nat × List DialAction :=
  match env.hostPort with
  | .error e => (.error e, [])
  | .ok (host, _) =>
    match env.dial with
    | .error e => (.error e, [.dialCall])
    | .ok conn =>
      let config := (legacyTLSDialerConfig base host).1
      match env.handshake config with
      | .error e => (.error e, [.dialCall, .handshakeCall conn config, .closeConn conn])
      | .ok _ => (.ok conn, [.dialCall, .handshakeCall conn config])

/--
C3: for every host and port, `tlsDialer.config` derives the
per-connection config from a clone of the dialer's base config (or an
empty config when the base is nil): `ServerName` becomes the dialed host
only when it was empty, `NextProtos` defaults to `h2, http/1.1` for port
443 and to `dot` for port 853 only when not already set, every other port
adds no ALPN, and the stored base config object is never mutated by the
call.
-/
theorem tlsDialerConfig_spec (base : Option Config) (host port : String) :
    (tlsDialerConfig base host port).2 = base ∧
    (tlsDialerConfig base host port).1 =
      { base.getD Config.zero with
        ServerName :=
          if (base.getD Config.zero).ServerName = "" then host
          else (base.getD Config.zero).ServerName,
        NextProtos :=
          if (base.getD Config.zero).NextProtos = [] then
            if port = "443" then ["h2", "http/1.1"]
            else if port = "853" then ["dot"]
            else (base.getD Config.zero).NextProtos
          else (base.getD Config.zero).NextProtos } := by
  cases base with
  | none =>
      unfold tlsDialerConfig
      simp only [CfgPtr.clone, CfgPtr.write, Option.getD_none, Option.map_none',
        Config.zero]
      refine ⟨by trivial, ?_⟩
      by_cases h443 : port = "443"
      · subst h443; simp
      · by_cases h853 : port = "853"
        · subst h853; simp
        · simp only [if_neg h443, if_neg h853]
          split <;> simp_all
  | some c =>
      unfold tlsDialerConfig
      simp only [CfgPtr.ofCaller, CfgPtr.clone, CfgPtr.write, Option.getD_some,
        Option.map_some']
      by_cases h443 : port = "443"
      · subst h443
        by_cases hsn : c.ServerName = "" <;> by_cases hnp : c.NextProtos = [] <;>
          simp [hsn, hnp, List.length_eq_zero, Nat.le_zero]
      · by_cases h853 : port = "853"
        · subst h853
          by_cases hsn : c.ServerName = "" <;> by_cases hnp : c.NextProtos = [] <;>
            simp [hsn, hnp, List.length_eq_zero, Nat.le_zero]
        · simp only [if_neg h443, if_neg h853]
          by_cases hsn : c.ServerName = "" <;> by_cases hnp : c.NextProtos = [] <;>
            (simp [hsn, hnp, List.length_eq_zero, Nat.le_zero] <;> rw [← hnp])

/--
C2: whenever the handshake step of `tlsDialer.DialTLSContext` fails, the
TCP connection obtained from the inner dialer is closed before the
handshake error is returned, so a failed handshake never returns or leaks
an open socket; the legacy `tlsdialer.TLSDialer.DialTLSContext` has the
same property.
-/
theorem dialTLSContext_closeOnFailure_spec (base : Option Config) (env : DialEnv)
    (host port : String) (conn : Nat) (e e2 : Err)
    (hs : env.hostPort = .ok (host, port))
    (hd : env.dial = .ok conn)
    (hh : env.handshake (tlsDialerConfig base host port).1 = .error e)
    (hh2 : env.handshake (legacyTLSDialerConfig base host).1 = .error e2) :
    tlsDialerDialTLSContext base env =
      (.error e, [.dialCall, .handshakeCall conn (tlsDialerConfig base host port).1,
                  .closeConn conn]) ∧
    legacyTLSDialerDialTLSContext base env =
      (.error e2, [.dialCall, .handshakeCall conn (legacyTLSDialerConfig base host).1,
                   .closeConn conn]) := by
  unfold tlsDialerDialTLSContext legacyTLSDialerDialTLSContext
  rw [hs, hd]
  simp [hh, hh2]

/-- Witness for C2 at a concrete dialer environment whose handshake always
fails. -/
theorem dialTLSContext_closeOnFailure_spec_witness :
    tlsDialerDialTLSContext none
      ⟨.ok ("example.com", "443"), .ok 5, fun _ => .error (.raw "handshake failed")⟩ =
      (.error (.raw "handshake failed"),
       [.dialCall,
        .handshakeCall 5 (tlsDialerConfig none "example.com" "443").1,
        .closeConn 5]) ∧
    legacyTLSDialerDialTLSContext none
      ⟨.ok ("example.com", "443"), .ok 5, fun _ => .error (.raw "handshake failed")⟩ =
      (.error (.raw "handshake failed"),
       [.dialCall,
        .handshakeCall 5 (legacyTLSDialerConfig none "example.com").1,
        .closeConn 5]) := by
  exact dialTLSContext_closeOnFailure_spec none
    ⟨.ok ("example.com", "443"), .ok 5, fun _ => .error (.raw "handshake failed")⟩
    "example.com" "443" 5 (.raw "handshake failed") (.raw "handshake failed")
    rfl rfl rfl rfl

/--
C10: when host:port splitting of the address fails,
`tlsDialer.DialTLSContext` returns the splitting error exactly as it was
produced — unclassified — without invoking the inner dialer, performing a
handshake, or closing anything.
-/
theorem dialTLSContext_splitError_spec (base : Option Config) (env : DialEnv)
    (e : Err) (hs : env.hostPort = .error e) :
    tlsDialerDialTLSContext base env = (.error e, []) := by
  unfold tlsDialerDialTLSContext
  rw [hs]

/-- Witness for C10 at a concrete address whose split fails: the raw,
unclassified error comes back and no action is taken. -/
theorem dialTLSContext_splitError_spec_witness :
    tlsDialerDialTLSContext none
      ⟨.error (.raw "address no-port: missing port in address"), .ok 5, fun _ => .ok ()⟩ =
      (.error (.raw "address no-port: missing port in address"), []) :=
  dialTLSContext_splitError_spec none
    ⟨.error (.raw "address no-port: missing port in address"), .ok 5, fun _ => .ok ()⟩
    (.raw "address no-port: missing port in address") rfl
